import Mathlib

/-!
Shallow embedding of the two scripts of mkcms/gpx-mode:
`gpx2html.py` (track map renderer) and `plot_track_elevation.py`
(elevation profile renderer).

Points, segments and tracks mirror the parsed GPX structure the scripts
consume.  Machine floats are embedded as rationals; the external planar
distance function `distance_2d` of the gpxpy library is a parameter
`dist : Point → Point → ℚ` of the elevation pipeline.  Fallible steps
(list indexing, `min`/`max` of a possibly empty list, bounds fitting)
return `Except PyErr`; a run that returns `Except.error` models the
process dying before the output file is written.
-/

namespace Gpx

/-- The failure kinds the scripts can hit: Python `IndexError`
(out-of-range list subscript) and `ValueError` (`min`/`max` of an empty
sequence, and the spec's empty-bounds failure). -/
inductive PyErr where
  | indexError
  | valueError
deriving DecidableEq

/-- A GPX point: `latitude`, `longitude` (degrees) and an optional
`elevation` (meters), as produced by the external parser. -/
structure Point where
  latitude : ℚ
  longitude : ℚ
  elevation : Option ℚ
deriving DecidableEq

/-- A GPX segment: an ordered run of points. -/
structure Segment where
  points : List Point
deriving DecidableEq

/-- A GPX track: an ordered list of segments. -/
structure Track where
  segments : List Segment
deriving DecidableEq

/-- A parsed GPX document: an ordered list of tracks. -/
structure GPX where
  tracks : List Track
deriving DecidableEq

/-- Python list-subscript normalisation: a negative index counts from the
end of the list (`l[-1]` is the last element). -/
def pyNorm (i : ℤ) (n : ℕ) : ℤ := if i < 0 then i + n else i

/-- Python list subscript `l[i]` with an `int` index: negative indices
count from the end; anything still out of range raises `IndexError`. -/
def pyIndex {α : Type} (l : List α) (i : ℤ) : Except PyErr α :=
  if h : 0 ≤ pyNorm i l.length ∧ pyNorm i l.length < (l.length : ℤ) then
    Except.ok (l.get ⟨(pyNorm i l.length).toNat, by omega⟩)
  else
    Except.error PyErr.indexError

/-- The Python range in which `l[i]` succeeds for a list of length `n`:
`-n ≤ i < n`. -/
def pyInRange (n : ℕ) (i : ℤ) : Prop := -(n : ℤ) ≤ i ∧ i < (n : ℤ)

instance (n : ℕ) (i : ℤ) : Decidable (pyInRange n i) := by
  unfold pyInRange; infer_instance

/-- `track_data = gpx.tracks[track]` (both scripts). -/
def track_data (g : GPX) (track : ℤ) : Except PyErr Track :=
  pyIndex g.tracks track

/-- `segment_data = track_data.segments[segment]` (both scripts). -/
def segment_data (td : Track) (segment : ℤ) : Except PyErr Segment :=
  pyIndex td.segments segment

/-- The two selection lines composed: index into the tracks, then into
the chosen track's segments. -/
def selectSegment (g : GPX) (track segment : ℤ) : Except PyErr Segment :=
  match track_data g track with
  | Except.error e => Except.error e
  | Except.ok td => segment_data td segment

/-- What `route_map.save` serialises in `gpx2html.py`: the polyline
coordinates, its stroke weight, and the fixed canvas size of the map
constructed at the top of the script. -/
structure MapOutput where
  coordinates : List (ℚ × ℚ)
  weight : ℕ
  width : ℕ
  height : ℕ
deriving DecidableEq

/-- Modelled from the spec: folium's `fit_bounds` (the viewport fit, an
external capability) fails when the coordinate sequence is empty — “no
bounds to fit”. -/
def fit_bounds (coords : List (ℚ × ℚ)) : Except PyErr Unit :=
  if coords.isEmpty then Except.error PyErr.valueError else Except.ok ()

/-- The pipeline of `gpx2html.py`: select the segment, build the
`(latitude, longitude)` list, draw the polyline with weight 6, fit the
viewport, save. An `Except.error` result means the process died before
`route_map.save` ran. -/
def gpx2html (g : GPX) (track segment : ℤ) : Except PyErr MapOutput :=
  match selectSegment g track segment with
  | Except.error e => Except.error e
  | Except.ok sd =>
    match fit_bounds (sd.points.map fun p => (p.latitude, p.longitude)) with
    | Except.error e => Except.error e
    | Except.ok _ =>
      Except.ok ⟨sd.points.map fun p => (p.latitude, p.longitude), 6, 1024, 768⟩

/-- `p.elevation or 0` in `plot_track_elevation.py`: Python `or` takes
the right operand when the left is falsy, so `None` — and a literal
elevation of `0.0`, which is numerically the same — becomes `0`. -/
def elevOrZero (p : Point) : ℚ :=
  match p.elevation with
  | none => 0
  | some e => if e = 0 then 0 else e

/-- A generator object returned by calling `partial_distances(points)`:
the call itself only captures the argument; the body has not run. -/
structure PDGen where
  points : List Point
deriving DecidableEq

/-- Calling the generator function `partial_distances` never raises: it
returns a generator holding the argument, deferring the body. -/
def partial_distances (points : List Point) : PDGen := ⟨points⟩

/-- The generator body's loop: `for p in points: dist += p.distance_2d(last);
last = p; yield dist`, with accumulator `d` and previous point `last`. -/
def pdLoop (dist : Point → Point → ℚ) : List Point → Point → ℚ → List ℚ
  | [], _, _ => []
  | p :: ps, last, d => (d + dist p last) :: pdLoop dist ps p (d + dist p last)

/-- Materialising the generator (`list(...)` on line 27) runs the body:
`last = points[0]` raises `IndexError` on an empty sequence, then the
loop yields one running total per point. -/
def pyListOfGen (dist : Point → Point → ℚ) (g : PDGen) : Except PyErr (List ℚ) :=
  match g.points with
  | [] => Except.error PyErr.indexError
  | p0 :: _ => Except.ok (pdLoop dist g.points p0 0)

/-- Python `min(l)` for a list of numbers: `ValueError` on an empty list,
otherwise the left fold of binary `min` (this is `List.min?`). -/
def listMin (l : List ℚ) : Except PyErr ℚ :=
  match l.min? with
  | none => Except.error PyErr.valueError
  | some m => Except.ok m

/-- Python `max(l)`: `ValueError` on an empty list, else the fold of
binary `max`. -/
def listMax (l : List ℚ) : Except PyErr ℚ :=
  match l.max? with
  | none => Except.error PyErr.valueError
  | some m => Except.ok m

/-- What `plt.savefig` rasterises in `plot_track_elevation.py`: the x
series (cumulative distances), y series (zero-filled elevations), the
y-axis limits, the figure size and the DPI. -/
structure PlotOutput where
  xs : List ℚ
  ys : List ℚ
  ylim : ℚ × ℚ
  figsize : ℚ × ℚ
  dpi : ℕ
deriving DecidableEq

/-- The pipeline of `plot_track_elevation.py`: select the segment,
zero-fill elevations, materialise the cumulative distances, then clamp
the y-axis to `min`/`max` of the elevations and save.  An `Except.error`
result means the process died before `plt.savefig` ran. -/
def plot_track_elevation (dist : Point → Point → ℚ) (g : GPX)
    (track segment : ℤ) : Except PyErr PlotOutput :=
  match selectSegment g track segment with
  | Except.error e => Except.error e
  | Except.ok sd =>
    match pyListOfGen dist (partial_distances sd.points) with
    | Except.error e => Except.error e
    | Except.ok distance_travelled =>
      match listMin (sd.points.map elevOrZero) with
      | Except.error e => Except.error e
      | Except.ok lo =>
        match listMax (sd.points.map elevOrZero) with
        | Except.error e => Except.error e
        | Except.ok hi =>
          Except.ok ⟨distance_travelled, sd.points.map elevOrZero,
                     (lo, hi), (9, 3), 100⟩

/-- Round the fraction `N / D` (`D ≥ 1`) to the nearest natural,
ties to even — the rounding Python's float formatting applies to
decimal digits. -/
def rndHEN (N D : ℕ) : ℕ :=
  if 2 * (N % D) < D then N / D
  else if D < 2 * (N % D) then N / D + 1
  else if (N / D) % 2 = 0 then N / D else N / D + 1

/-- Fuel-driven base-10 logarithm on naturals: `log10Fuel f n` is
`⌊log₁₀ n⌋` whenever `n ≤ 10 ^ f` and `1 ≤ n`. -/
def log10Fuel : ℕ → ℕ → ℕ
  | 0, _ => 0
  | f + 1, n => if n < 10 then 0 else log10Fuel f (n / 10) + 1

/-- `⌊log₁₀ n⌋` for `n ≥ 1` (fuel `n` always suffices). -/
def nlog10 (n : ℕ) : ℕ := log10Fuel n n

/-- The decimal exponent of the positive fraction `n / d`: the unique
`e` with `10 ^ e ≤ n / d < 10 ^ (e + 1)`. -/
def decExpND (n d : ℕ) : ℤ :=
  if d ≤ n then (nlog10 (n / d) : ℤ)
  else if n * 10 ^ nlog10 (d / n) = d then -(nlog10 (d / n) : ℤ)
  else -(nlog10 (d / n) : ℤ) - 1

/-- `n / d` scaled so that its first six significant digits land left
of the decimal point, rounded half-to-even. -/
def rnd6ND (n d : ℕ) : ℕ :=
  if decExpND n d ≤ 5 then rndHEN (n * 10 ^ (5 - decExpND n d).toNat) d
  else rndHEN n (d * 10 ^ (decExpND n d - 5).toNat)

/-- The six-significant-digit decimal mantissa and exponent of the
positive fraction `n / d`, as Python's `%g` (default precision 6)
rounds it: `(m, e)` with `m` a 6-digit natural, the value being
`m · 10 ^ (e - 5)`.  Rounding up to `10 ^ 6` carries into the
exponent. -/
def sig6ND (n d : ℕ) : ℕ × ℤ :=
  if rnd6ND n d = 1000000 then (100000, decExpND n d + 1)
  else (rnd6ND n d, decExpND n d)

/-- The decimal digit `d` (`0 ≤ d ≤ 9`) as a character. -/
def digitChar (d : ℕ) : Char := Char.ofNat (48 + d)

/-- Fuel-driven big-endian decimal digits of a natural number. -/
def natDigits : ℕ → ℕ → List Char
  | 0, _ => []
  | _ + 1, 0 => []
  | f + 1, n => natDigits f (n / 10) ++ [digitChar (n % 10)]

/-- The decimal digit string of a natural number. -/
def natStr (n : ℕ) : List Char := if n = 0 then ['0'] else natDigits n n

/-- Strip trailing `'0'` characters (how `%g` trims a fraction). -/
def stripZeros (l : List Char) : List Char :=
  (l.reverse.dropWhile (fun c => c = '0')).reverse

/-- Fixed-notation rendering of a digit string and exponent, with the
trailing zeros of the fractional part (and a then-empty point) removed:
the `-4 ≤ e < 6` branch of `%g`. -/
def fixedNotation (ds : List Char) (e : ℤ) : String :=
  if 0 ≤ e then
    String.mk (ds.take (e.toNat + 1)) ++
      (if stripZeros (ds.drop (e.toNat + 1)) = [] then ""
       else "." ++ String.mk (stripZeros (ds.drop (e.toNat + 1))))
  else
    "0." ++ String.mk (stripZeros (List.replicate (e.natAbs - 1) '0' ++ ds))

/-- Scientific-notation rendering (`%g` outside `-4 ≤ e < 6`): one
leading digit, a stripped fraction, and a signed two-digit-minimum
exponent. -/
def sciNotation (ds : List Char) (e : ℤ) : String :=
  String.mk (ds.take 1) ++
    (if stripZeros (ds.drop 1) = [] then ""
     else "." ++ String.mk (stripZeros (ds.drop 1))) ++
    "e" ++ (if e < 0 then "-" else "+") ++
    (if e.natAbs < 10 then "0" ++ String.mk (natStr e.natAbs)
     else String.mk (natStr e.natAbs))

/-- Python's general float format `f-string {v:g}` at the default
precision 6, over a rational given by its reduced numerator and
denominator: fixed or scientific notation by the size of the exponent,
trailing zeros trimmed. -/
def formatG (q : ℚ) : String :=
  if q.num = 0 then "0"
  else
    (if q.num < 0 then "-" else "") ++
      (if -4 ≤ (sig6ND q.num.natAbs q.den).2 ∧ (sig6ND q.num.natAbs q.den).2 < 6 then
        fixedNotation (natStr (sig6ND q.num.natAbs q.den).1)
          (sig6ND q.num.natAbs q.den).2
      else
        sciNotation (natStr (sig6ND q.num.natAbs q.den).1)
          (sig6ND q.num.natAbs q.den).2)

/-- The x-axis tick formatter of `plot_track_elevation.py` line 31:
`lambda x, _: f'{x/1000:g}km'`. -/
def xFmt (x : ℚ) : String := formatG (x / 1000) ++ "km"

/-- A concrete planar distance (taxicab on raw degrees), standing in for
the external `distance_2d` when a witness needs one: it vanishes on
equal coordinates and is positive on distinct ones. -/
def distL1 (p q : Point) : ℚ :=
  |p.latitude - q.latitude| + |p.longitude - q.longitude|

/-- A document with one track holding one single-point segment. -/
def g1pt : GPX := ⟨[⟨[⟨[⟨1, 2, some 5⟩]⟩]⟩]⟩

/-- A document with one track holding one empty segment. -/
def gEmptySeg : GPX := ⟨[⟨[⟨[]⟩]⟩]⟩

/-- First point of the spec's end-to-end example: `(0, 0, ele 10)`. -/
def p6a : Point := ⟨0, 0, some 10⟩

/-- Second point of the end-to-end example: `(0, 0.01, ele 20)`. -/
def p6b : Point := ⟨0, 1 / 100, some 20⟩

/-- Third point of the end-to-end example: `(0, 0.02, no elevation)`. -/
def p6c : Point := ⟨0, 1 / 50, none⟩

/-- The end-to-end example document: one track, one segment, the three
points above. -/
def g6 : GPX := ⟨[⟨[⟨[p6a, p6b, p6c]⟩]⟩]⟩

/-- A Python subscript outside `-n ≤ i < n` raises `IndexError`. -/
lemma pyIndex_fault {α : Type} (l : List α) (i : ℤ)
    (h : ¬ pyInRange l.length i) :
    pyIndex l i = Except.error PyErr.indexError := by
  unfold pyInRange at h
  rw [pyIndex, dif_neg]
  unfold pyNorm
  split <;> omega

/-- If selecting the segment fails, so does the whole map pipeline,
with the same error. -/
lemma gpx2html_sel_error (g : GPX) (t s : ℤ) (e : PyErr)
    (h : selectSegment g t s = Except.error e) :
    gpx2html g t s = Except.error e := by
  unfold gpx2html
  rw [h]

/-- If selecting the segment fails, so does the whole elevation
pipeline, with the same error. -/
lemma plot_sel_error (dist : Point → Point → ℚ) (g : GPX) (t s : ℤ)
    (e : PyErr) (h : selectSegment g t s = Except.error e) :
    plot_track_elevation dist g t s = Except.error e := by
  unfold plot_track_elevation
  rw [h]

/-- Inverting a successful map run: the selection succeeded and the
output is the coordinate list with the fixed weight and canvas. -/
lemma gpx2html_ok_inv (g : GPX) (t s : ℤ) (out : MapOutput)
    (h : gpx2html g t s = Except.ok out) :
    ∃ sd, selectSegment g t s = Except.ok sd ∧
      out = ⟨sd.points.map fun p => (p.latitude, p.longitude), 6, 1024, 768⟩ := by
  unfold gpx2html at h
  cases hsel : selectSegment g t s with
  | error e => rw [hsel] at h; cases h
  | ok sd =>
    rw [hsel] at h
    dsimp only at h
    refine ⟨sd, rfl, ?_⟩
    cases hfit : fit_bounds (sd.points.map fun p => (p.latitude, p.longitude)) with
    | error e => rw [hfit] at h; cases h
    | ok u => rw [hfit] at h; cases h; rfl

/-- Inverting a successful elevation run: the selection succeeded, the
distances materialised, `min`/`max` of the zero-filled elevations
succeeded, and the output is built from exactly those pieces. -/
lemma plot_ok_inv (dist : Point → Point → ℚ) (g : GPX) (t s : ℤ)
    (out : PlotOutput) (h : plot_track_elevation dist g t s = Except.ok out) :
    ∃ sd xs lo hi, selectSegment g t s = Except.ok sd ∧
      pyListOfGen dist (partial_distances sd.points) = Except.ok xs ∧
      listMin (sd.points.map elevOrZero) = Except.ok lo ∧
      listMax (sd.points.map elevOrZero) = Except.ok hi ∧
      out = ⟨xs, sd.points.map elevOrZero, (lo, hi), (9, 3), 100⟩ := by
  unfold plot_track_elevation at h
  cases hsel : selectSegment g t s with
  | error e => rw [hsel] at h; cases h
  | ok sd =>
    rw [hsel] at h
    dsimp only at h
    cases hxs : pyListOfGen dist (partial_distances sd.points) with
    | error e => rw [hxs] at h; cases h
    | ok xs =>
      rw [hxs] at h
      dsimp only at h
      cases hlo : listMin (sd.points.map elevOrZero) with
      | error e => rw [hlo] at h; cases h
      | ok lo =>
        rw [hlo] at h
        dsimp only at h
        cases hhi : listMax (sd.points.map elevOrZero) with
        | error e => rw [hhi] at h; cases h
        | ok hi =>
          rw [hhi] at h
          dsimp only at h
          cases h
          exact ⟨sd, xs, lo, hi, rfl, hxs, hlo, hhi, rfl⟩

/-- A second one-point document with the same latitude/longitude as
`g1pt` but a different elevation, for the elevation-independence
witness. -/
def g1ptB : GPX := ⟨[⟨[⟨[⟨1, 2, some 99⟩]⟩]⟩]⟩

/-- With a nonnegative distance, every prefix sum the loop yields is at
least the accumulator it started from, link by link. -/
lemma pdLoop_chain (dist : Point → Point → ℚ) (hnn : ∀ p q, 0 ≤ dist p q) :
    ∀ (ps : List Point) (last : Point) (d : ℚ),
      List.Chain' (· ≤ ·) (d :: pdLoop dist ps last d) := by
  intro ps
  induction ps with
  | nil => intro last d; simp [pdLoop]
  | cons p ps ih =>
    intro last d
    show List.Chain' (· ≤ ·)
      (d :: (d + dist p last) :: pdLoop dist ps p (d + dist p last))
    rw [List.chain'_cons]
    exact ⟨le_add_of_nonneg_right (hnn p last), ih p (d + dist p last)⟩

/-- C1: for every non-empty point sequence, assuming the planar distance
is nonnegative and vanishes on equal points, the materialised cumulative
distance sequence exists, starts at exactly 0, and is monotonically
non-decreasing. -/
theorem cumulative_distances_monotone_from_zero (dist : Point → Point → ℚ)
    (pts : List Point) (hne : pts ≠ [])
    (hself : ∀ p, dist p p = 0) (hnn : ∀ p q, 0 ≤ dist p q) :
    ∃ l, pyListOfGen dist (partial_distances pts) = Except.ok l ∧
      l.head? = some 0 ∧ List.Chain' (· ≤ ·) l := by
  match pts, hne with
  | p0 :: rest, _ =>
    refine ⟨pdLoop dist (p0 :: rest) p0 0, rfl, ?_, ?_⟩
    · show ((0 + dist p0 p0) :: pdLoop dist rest p0 (0 + dist p0 p0)).head? = some 0
      rw [hself p0]
      simp
    · show List.Chain' (· ≤ ·)
        ((0 + dist p0 p0) :: pdLoop dist rest p0 (0 + dist p0 p0))
      exact pdLoop_chain dist hnn rest p0 (0 + dist p0 p0)

/-- C1 witness: the property instantiated on a concrete two-point
sequence with the concrete taxicab distance. -/
theorem cumulative_distances_monotone_from_zero_witness :
    ∃ l, pyListOfGen distL1
        (partial_distances [⟨0, 0, none⟩, ⟨3, 4, some 1⟩]) = Except.ok l ∧
      l.head? = some 0 ∧ List.Chain' (· ≤ ·) l :=
  cumulative_distances_monotone_from_zero distL1 _ (by simp)
    (fun p => by simp [distL1])
    (fun p q => add_nonneg (abs_nonneg _) (abs_nonneg _))

/-- C2 counterexample: the claim says every track index outside
`0 ≤ t < len(tracks)` (including negative ones) is a fatal indexing
failure, but Python subscripts count negative indices from the end:
with a single track, index `-1` selects it and both renderers run to
completion and produce their output. -/
theorem negative_index_succeeds :
    gpx2html g1pt (-1) 0 = Except.ok ⟨[(1, 2)], 6, 1024, 768⟩ ∧
    plot_track_elevation distL1 g1pt (-1) 0 =
      Except.ok ⟨[0], [5], (5, 5), (9, 3), 100⟩ := by
  refine ⟨rfl, ?_⟩
  have h : (0 : ℚ) + distL1 ⟨1, 2, some 5⟩ ⟨1, 2, some 5⟩ = 0 := by
    norm_num [distL1]
  calc plot_track_elevation distL1 g1pt (-1) 0
      = Except.ok ⟨[0 + distL1 ⟨1, 2, some 5⟩ ⟨1, 2, some 5⟩],
          [5], (5, 5), (9, 3), 100⟩ := rfl
    _ = Except.ok ⟨[0], [5], (5, 5), (9, 3), 100⟩ := by rw [h]

/-- C2 amended: an index outside Python's accepted window
`-len ≤ i < len` — for the track list, or for the segment list of a
successfully selected track — makes both renderers fail with the
indexing fault before producing any output. -/
theorem out_of_python_range_faults (dist : Point → Point → ℚ) (g : GPX)
    (t s : ℤ)
    (h : ¬ pyInRange g.tracks.length t ∨
         ∃ td, track_data g t = Except.ok td ∧ ¬ pyInRange td.segments.length s) :
    gpx2html g t s = Except.error PyErr.indexError ∧
    plot_track_elevation dist g t s = Except.error PyErr.indexError := by
  have hsel : selectSegment g t s = Except.error PyErr.indexError := by
    rcases h with h | ⟨td, htd, hs⟩
    · have htd : track_data g t = Except.error PyErr.indexError :=
        pyIndex_fault g.tracks t h
      unfold selectSegment
      rw [htd]
    · have hsd : segment_data td s = Except.error PyErr.indexError :=
        pyIndex_fault td.segments s hs
      unfold selectSegment
      rw [htd]
      exact hsd
  exact ⟨gpx2html_sel_error g t s _ hsel, plot_sel_error dist g t s _ hsel⟩

/-- C2 witness: track index 5 against a one-track document faults in
both renderers. -/
theorem out_of_python_range_faults_witness :
    gpx2html g1pt 5 0 = Except.error PyErr.indexError ∧
    plot_track_elevation distL1 g1pt 5 0 = Except.error PyErr.indexError :=
  out_of_python_range_faults distL1 g1pt 5 0 (Or.inl (by decide))

/-- C3 counterexample: on an empty segment the elevation renderer does
fail before writing output, but with the `IndexError` of `points[0]`
raised while materialising the cumulative distances — not the
`ValueError` that `min`/`max` of an empty sequence would raise, which
the run never reaches. -/
theorem empty_segment_error_kind :
    plot_track_elevation distL1 gEmptySeg 0 0 = Except.error PyErr.indexError ∧
    listMin ([] : List ℚ) = Except.error PyErr.valueError ∧
    PyErr.indexError ≠ PyErr.valueError :=
  ⟨rfl, rfl, by decide⟩

/-- C3 amended: a selected empty segment makes both renderers fail
before producing output — the map renderer at the empty viewport fit,
the elevation renderer at `points[0]` while materialising the
cumulative-distance generator (reached before `min`/`max`). -/
theorem empty_segment_both_fail (dist : Point → Point → ℚ) (g : GPX)
    (t s : ℤ) (sd : Segment) (hsel : selectSegment g t s = Except.ok sd)
    (he : sd.points = []) :
    gpx2html g t s = Except.error PyErr.valueError ∧
    plot_track_elevation dist g t s = Except.error PyErr.indexError := by
  constructor
  · unfold gpx2html
    rw [hsel]
    dsimp only
    rw [he]
    rfl
  · unfold plot_track_elevation
    rw [hsel]
    dsimp only
    rw [he]
    rfl

/-- C3 witness: the amended statement on the concrete empty-segment
document. -/
theorem empty_segment_both_fail_witness :
    gpx2html gEmptySeg 0 0 = Except.error PyErr.valueError ∧
    plot_track_elevation distL1 gEmptySeg 0 0 = Except.error PyErr.indexError :=
  empty_segment_both_fail distL1 gEmptySeg 0 0 ⟨[]⟩ rfl rfl

/-- Evaluating the elevation pipeline on the concrete one-point
document: the single cumulative distance is the first point's distance
to itself, which is 0. -/
lemma plot_g1pt_eval : plot_track_elevation distL1 g1pt 0 0 =
    Except.ok ⟨[0], [5], (5, 5), (9, 3), 100⟩ := by
  have h : (0 : ℚ) + distL1 ⟨1, 2, some 5⟩ ⟨1, 2, some 5⟩ = 0 := by
    norm_num [distL1]
  calc plot_track_elevation distL1 g1pt 0 0
      = Except.ok ⟨[0 + distL1 ⟨1, 2, some 5⟩ ⟨1, 2, some 5⟩],
          [5], (5, 5), (9, 3), 100⟩ := rfl
    _ = Except.ok ⟨[0], [5], (5, 5), (9, 3), 100⟩ := by rw [h]

/-- C4: in any successful elevation run the y series is exactly the
per-point zero-substituted elevations, and the substitution maps an
absent elevation to exactly 0 while keeping any present elevation
value. -/
theorem elevation_zero_substitution (dist : Point → Point → ℚ) (g : GPX)
    (t s : ℤ) (out : PlotOutput)
    (h : plot_track_elevation dist g t s = Except.ok out) :
    (∃ sd, selectSegment g t s = Except.ok sd ∧
      out.ys = sd.points.map elevOrZero) ∧
    (∀ p : Point, p.elevation = none → elevOrZero p = 0) ∧
    (∀ p : Point, ∀ e : ℚ, p.elevation = some e → elevOrZero p = e) := by
  obtain ⟨sd, xs, lo, hi, hsel, -, -, -, hout⟩ := plot_ok_inv dist g t s out h
  refine ⟨⟨sd, hsel, by rw [hout]⟩, ?_, ?_⟩
  · intro p hp
    simp [elevOrZero, hp]
  · intro p e hp
    rcases eq_or_ne e 0 with h0 | h0 <;> simp [elevOrZero, hp, h0]

/-- C4 witness: the property instantiated on a concrete successful
run. -/
theorem elevation_zero_substitution_witness :
    (∃ sd, selectSegment g1pt 0 0 = Except.ok sd ∧
      (PlotOutput.mk [0] [5] (5, 5) (9, 3) 100).ys = sd.points.map elevOrZero) ∧
    (∀ p : Point, p.elevation = none → elevOrZero p = 0) ∧
    (∀ p : Point, ∀ e : ℚ, p.elevation = some e → elevOrZero p = e) :=
  elevation_zero_substitution distL1 g1pt 0 0 _ plot_g1pt_eval

/-- C5: in any successful elevation run, both y-axis limits are values
of the zero-substituted elevation sequence and they bound it below and
above — i.e. the limits are exactly its minimum and maximum. -/
theorem ylim_is_min_max (dist : Point → Point → ℚ) (g : GPX) (t s : ℤ)
    (out : PlotOutput) (h : plot_track_elevation dist g t s = Except.ok out) :
    (∃ sd, selectSegment g t s = Except.ok sd ∧
      out.ys = sd.points.map elevOrZero) ∧
    out.ylim.1 ∈ out.ys ∧ out.ylim.2 ∈ out.ys ∧
    ∀ y ∈ out.ys, out.ylim.1 ≤ y ∧ y ≤ out.ylim.2 := by
  obtain ⟨sd, xs, lo, hi, hsel, -, hlo, hhi, hout⟩ := plot_ok_inv dist g t s out h
  have hlo' : (sd.points.map elevOrZero).min? = some lo := by
    unfold listMin at hlo
    cases hm : (sd.points.map elevOrZero).min? with
    | none => rw [hm] at hlo; cases hlo
    | some m => rw [hm] at hlo; cases hlo; rfl
  have hhi' : (sd.points.map elevOrZero).max? = some hi := by
    unfold listMax at hhi
    cases hm : (sd.points.map elevOrZero).max? with
    | none => rw [hm] at hhi; cases hhi
    | some m => rw [hm] at hhi; cases hhi; rfl
  subst hout
  refine ⟨⟨sd, hsel, rfl⟩, ?_, ?_, ?_⟩
  · exact List.min?_mem (fun a b => min_choice a b) hlo'
  · exact List.max?_mem (fun a b => max_choice a b) hhi'
  · intro y hy
    exact ⟨(List.le_min?_iff (fun a b c => le_min_iff) hlo').1 le_rfl y hy,
      (List.max?_le_iff (fun a b c => max_le_iff) hhi').1 le_rfl y hy⟩

/-- C5 witness: the property instantiated on a concrete successful
run. -/
theorem ylim_is_min_max_witness :
    (∃ sd, selectSegment g1pt 0 0 = Except.ok sd ∧
      (PlotOutput.mk [0] [5] (5, 5) (9, 3) 100).ys = sd.points.map elevOrZero) ∧
    (PlotOutput.mk [0] [5] (5, 5) (9, 3) 100).ylim.1 ∈
      (PlotOutput.mk [0] [5] (5, 5) (9, 3) 100).ys ∧
    (PlotOutput.mk [0] [5] (5, 5) (9, 3) 100).ylim.2 ∈
      (PlotOutput.mk [0] [5] (5, 5) (9, 3) 100).ys ∧
    ∀ y ∈ (PlotOutput.mk [0] [5] (5, 5) (9, 3) 100).ys,
      (PlotOutput.mk [0] [5] (5, 5) (9, 3) 100).ylim.1 ≤ y ∧
      y ≤ (PlotOutput.mk [0] [5] (5, 5) (9, 3) 100).ylim.2 :=
  ylim_is_min_max distL1 g1pt 0 0 _ plot_g1pt_eval

/-- C6: on the spec's three-point example segment, for any planar
distance that vanishes on the repeated first point and is positive
between the distinct consecutive points, the elevation renderer
produces cumulative distances `[0, d1, d1 + d2]`, the elevation series
`[10, 20, 0]`, and y-axis limits `(0, 20)`. -/
theorem end_to_end_three_point_example (dist : Point → Point → ℚ)
    (h0 : dist p6a p6a = 0)
    (h1 : 0 < dist p6b p6a) (h2 : 0 < dist p6c p6b) :
    plot_track_elevation dist g6 0 0 =
      Except.ok ⟨[0, dist p6b p6a, dist p6b p6a + dist p6c p6b],
        [10, 20, 0], (0, 20), (9, 3), 100⟩ ∧
    0 < dist p6b p6a ∧ 0 < dist p6c p6b := by
  refine ⟨?_, h1, h2⟩
  unfold plot_track_elevation
  rw [show selectSegment g6 0 0 = Except.ok ⟨[p6a, p6b, p6c]⟩ from rfl]
  dsimp only
  rw [show pyListOfGen dist (partial_distances [p6a, p6b, p6c]) =
      Except.ok [0 + dist p6a p6a,
        0 + dist p6a p6a + dist p6b p6a,
        0 + dist p6a p6a + dist p6b p6a + dist p6c p6b] from rfl]
  dsimp only
  rw [show listMin ([p6a, p6b, p6c].map elevOrZero) = Except.ok 0 from rfl]
  dsimp only
  rw [show listMax ([p6a, p6b, p6c].map elevOrZero) = Except.ok 20 from rfl]
  dsimp only
  rw [h0]
  norm_num [elevOrZero, p6a, p6b, p6c]

/-- C6 witness: the example with the concrete taxicab distance, whose
two consecutive hops are each 1/100 of a degree. -/
theorem end_to_end_three_point_example_witness :
    plot_track_elevation distL1 g6 0 0 =
      Except.ok ⟨[0, distL1 p6b p6a, distL1 p6b p6a + distL1 p6c p6b],
        [10, 20, 0], (0, 20), (9, 3), 100⟩ ∧
    0 < distL1 p6b p6a ∧ 0 < distL1 p6c p6b :=
  end_to_end_three_point_example distL1 (by norm_num [distL1, p6a])
    (by norm_num [distL1, p6a, p6b]) (by norm_num [distL1, p6b, p6c])

/-- C7: in any successful map run, the coordinate list the polyline and
viewport fit received is the ordered `(latitude, longitude)` projection
of the segment's points — one pair per point, in order. -/
theorem map_one_coordinate_per_point (g : GPX) (t s : ℤ) (out : MapOutput)
    (h : gpx2html g t s = Except.ok out) :
    ∃ sd, selectSegment g t s = Except.ok sd ∧
      out.coordinates = sd.points.map (fun p => (p.latitude, p.longitude)) ∧
      out.coordinates.length = sd.points.length := by
  obtain ⟨sd, hsel, hout⟩ := gpx2html_ok_inv g t s out h
  refine ⟨sd, hsel, by rw [hout], by rw [hout]; simp⟩

/-- C7 witness: the property instantiated on a concrete successful
run. -/
theorem map_one_coordinate_per_point_witness :
    ∃ sd, selectSegment g1pt 0 0 = Except.ok sd ∧
      (MapOutput.mk [(1, 2)] 6 1024 768).coordinates =
        sd.points.map (fun p => (p.latitude, p.longitude)) ∧
      (MapOutput.mk [(1, 2)] 6 1024 768).coordinates.length =
        sd.points.length :=
  map_one_coordinate_per_point g1pt 0 0 _ rfl

/-- C8 counterexample: the tick label is not rendered "with one
decimal": `x = 1000` renders as `1km` (no decimal at all) and
`x = 1250` as `1.25km` (two decimals), because the general format
trims trailing zeros instead of fixing one fractional digit. -/
theorem tick_label_not_one_decimal :
    xFmt 1000 = "1km" ∧ xFmt 1250 = "1.25km" := by
  constructor
  · have h : (1000 : ℚ) / 1000 = 1 := by norm_num
    rw [xFmt, h]
    decide
  · have h : (1250 : ℚ) / 1000 = mkRat 5 4 := by
      rw [Rat.mkRat_eq_div]; norm_num
    rw [xFmt, h]
    decide

/-- C8 amended: every tick label is the Python general-format (`g`)
rendering of `x / 1000` followed by the suffix `km`; trailing zeros are
trimmed, so the number of decimals varies with the value instead of
being fixed at one. -/
theorem tick_label_general_format :
    (∀ x : ℚ, xFmt x = formatG (x / 1000) ++ "km") ∧
    xFmt 1500 = "1.5km" ∧ xFmt 12340 = "12.34km" ∧ xFmt 500 = "0.5km" := by
  refine ⟨fun _ => rfl, ?_, ?_, ?_⟩
  · have h : (1500 : ℚ) / 1000 = mkRat 3 2 := by
      rw [Rat.mkRat_eq_div]; norm_num
    rw [xFmt, h]
    decide
  · have h : (12340 : ℚ) / 1000 = mkRat 617 50 := by
      rw [Rat.mkRat_eq_div]; norm_num
    rw [xFmt, h]
    decide
  · have h : (500 : ℚ) / 1000 = mkRat 1 2 := by
      rw [Rat.mkRat_eq_div]; norm_num
    rw [xFmt, h]
    decide

/-- C9: the map pipeline reads only latitude and longitude — two
documents whose selected segments project to the same
`(latitude, longitude)` sequence (e.g. differing only in elevations)
produce identical map output. -/
theorem map_ignores_elevation (ga gb : GPX) (t s : ℤ) (sda sdb : Segment)
    (ha : selectSegment ga t s = Except.ok sda)
    (hb : selectSegment gb t s = Except.ok sdb)
    (hll : sda.points.map (fun p => (p.latitude, p.longitude)) =
           sdb.points.map (fun p => (p.latitude, p.longitude))) :
    gpx2html ga t s = gpx2html gb t s := by
  unfold gpx2html
  rw [ha, hb]
  dsimp only
  rw [hll]

/-- C9 witness: two one-point documents equal except for the point's
elevation give the same map output. -/
theorem map_ignores_elevation_witness :
    gpx2html g1pt 0 0 = gpx2html g1ptB 0 0 :=
  map_ignores_elevation g1pt g1ptB 0 0 ⟨[⟨1, 2, some 5⟩]⟩ ⟨[⟨1, 2, some 99⟩]⟩
    rfl rfl rfl

/-- C10: calling `partial_distances` never raises — it only builds a
generator capturing the argument; the `IndexError` of `points[0]` on an
empty sequence surfaces only when the generator is first iterated, here
when `list(...)` materialises it. -/
theorem generator_creation_deferred (dist : Point → Point → ℚ) :
    (∀ pts : List Point, partial_distances pts = ⟨pts⟩) ∧
    pyListOfGen dist (partial_distances []) = Except.error PyErr.indexError :=
  ⟨fun _ => rfl, rfl⟩

end Gpx
